import Mathlib

/-!
Verification of the ImageEditor core (image-editor.js): a shallow embedding of
the transform-and-mask editing engine — the AnimationQueue, the
HistoryManager/Command undo-redo stack, mask creation/placement, the
scale/rotate transform controller, and the export/merge pipeline.

Modelling conventions:
* JavaScript numbers are modelled as `ℚ` (all arithmetic the claims touch is
  exact: clamping, rounding via `Math.round`, additions); sizes and mask ids
  are `ℕ`.
* The fabric.js scene-graph library is an external collaborator.  Scene
  objects are modelled by the fields the editor reads and writes (position,
  size, scale, angle, opacity, fill, stroke, selectability); canvas-pixel
  rendering, label text objects and DOM wiring are outside the model.
* Asynchronous operations complete in submission order on the single UI
  thread (the AnimationQueue drains sequentially); each editor operation is
  modelled as its completed effect on the state.
* Fallible steps (image decode during export cropping) are passed in as an
  explicit `Except` outcome so both the resolve and the reject path of the
  source can be analysed.
-/

/-- Configuration options of the editor (the subset read by the modelled
operations), with the constructor defaults of `ImageEditor`. -/
structure Options where
  minScale : ℚ
  maxScale : ℚ
  scaleStep : ℚ
  rotationStep : ℚ
  defaultMaskWidth : ℚ
  defaultMaskHeight : ℚ
  maskRotatable : Bool
  maskNamePre : String
  exportMultiplier : ℚ
deriving DecidableEq

/-- The constructor defaults: minScale 0.1, maxScale 5.0, scaleStep 0.05,
rotationStep 90, defaultMaskWidth 50, defaultMaskHeight 80,
maskRotatable false, maskName prefix "mask", exportMultiplier 1. -/
def defaultOptions : Options :=
  { minScale := mkRat 1 10, maxScale := 5, scaleStep := mkRat 1 20,
    rotationStep := 90, defaultMaskWidth := 50, defaultMaskHeight := 80,
    maskRotatable := false, maskNamePre := "mask", exportMultiplier := 1 }

/-- A mask object on the canvas: the fabric shape fields the editor reads and
writes.  `maskId`/`maskName` are the two custom fields the editor serializes
in addition to the library-standard ones. -/
structure Mask where
  maskId : Nat
  maskName : String
  left : ℚ
  top : ℚ
  width : ℚ
  height : ℚ
  scaleX : ℚ
  angle : ℚ
  opacity : ℚ
  fill : String
  stroke : Option String
  strokeWidth : ℚ
  selectable : Bool
  lockRotation : Bool
deriving DecidableEq

/-- The pixel raster that backs a load: its natural dimensions.  The model
only considers successful loads of valid data-url strings (invalid input
makes `loadImage` return without any state change). -/
structure ImgData where
  width : Nat
  height : Nat
deriving DecidableEq

/-- A scene snapshot: what `JSON.stringify(canvas.toJSON(['maskId','maskName']))`
captures of the state the claims are about — the base image (presence,
natural size, scaleX, angle) and every mask with its properties.  Labels are
removed by `_hideAllMaskLabels()` before each serialization and therefore
never appear in a snapshot. -/
structure Scene where
  hasImage : Bool
  imgWidth : Nat
  imgHeight : Nat
  imgScaleX : ℚ
  imgAngle : ℚ
  masks : List Mask
deriving DecidableEq

/-- A `Command`: the pair of closures built by `saveState` captures the two
snapshots (before/after).  After `HistoryManager.execute` has run the command
once, `executedOnce` is true, so every later `execute()` (a redo) loads the
`after` snapshot and `undo()` loads the `before` snapshot. -/
structure Cmd where
  before : Scene
  after : Scene
deriving DecidableEq

/-- HistoryManager: an ordered list of commands with a cursor
(`currentIndex`, −1 when empty) and a capacity (`maxSize`). -/
structure HistoryManager (α : Type) where
  history : List α
  currentIndex : Int
  maxSize : Nat
deriving DecidableEq

/-- JavaScript `history[i]` read guarded by the non-negativity check the
source performs (`currentIndex >= 0` before `history[currentIndex]`,
`currentIndex < length - 1` before `history[currentIndex + 1]`). -/
def histGet {α : Type} (l : List α) (i : Int) : Option α :=
  if i < 0 then none else l.get? i.toNat

/-- `HistoryManager.execute(command)`: runs the command (first run is a no-op
on the scene — `executedOnce` is still false), truncates the redoable suffix
(`history.slice(0, currentIndex + 1)` when `currentIndex < length - 1`),
appends, and if over capacity evicts the oldest entry WITHOUT advancing the
cursor; otherwise advances the cursor. -/
def HistoryManager.executeCmd {α : Type} (hm : HistoryManager α) (c : α) :
    HistoryManager α :=
  let h1 := if hm.currentIndex < (hm.history.length : Int) - 1
            then hm.history.take (hm.currentIndex + 1).toNat
            else hm.history
  let h2 := h1 ++ [c]
  if hm.maxSize < h2.length then
    { history := h2.drop 1, currentIndex := hm.currentIndex, maxSize := hm.maxSize }
  else
    { history := h2, currentIndex := hm.currentIndex + 1, maxSize := hm.maxSize }

/-- `canUndo()`: pure cursor-range predicate. -/
def HistoryManager.canUndo {α : Type} (hm : HistoryManager α) : Bool :=
  0 ≤ hm.currentIndex

/-- `canRedo()`: pure cursor-range predicate. -/
def HistoryManager.canRedo {α : Type} (hm : HistoryManager α) : Bool :=
  hm.currentIndex < (hm.history.length : Int) - 1

/-- `undo()`: if the cursor is in range, return the command whose `undo()`
closure runs, with the cursor decremented; otherwise a no-op returning no
command. -/
def HistoryManager.undoStep {α : Type} (hm : HistoryManager α) :
    HistoryManager α × Option α :=
  match histGet hm.history hm.currentIndex with
  | some c => ({ hm with currentIndex := hm.currentIndex - 1 }, some c)
  | none => (hm, none)

/-- `redo()`: if the cursor is before the end, increment it and return the
command whose `execute()` closure runs; otherwise a no-op returning no
command. -/
def HistoryManager.redoStep {α : Type} (hm : HistoryManager α) :
    HistoryManager α × Option α :=
  if hm.currentIndex < (hm.history.length : Int) - 1 then
    match histGet hm.history (hm.currentIndex + 1) with
    | some c => ({ hm with currentIndex := hm.currentIndex + 1 }, some c)
    | none => (hm, none)
  else (hm, none)

/-- Editor runtime state (the fields of the `ImageEditor` instance that the
claims are about).  The canvas itself always exists once `init` has run, so
the `!this.canvas` guards are vacuous in the model. -/
structure Editor where
  opts : Options
  hasImage : Bool
  imgWidth : Nat
  imgHeight : Nat
  baseImageScale : ℚ
  imgScaleX : ℚ
  imgAngle : ℚ
  masks : List Mask
  currentScale : ℚ
  currentRotation : ℚ
  maskCounter : Nat
  isAnimating : Bool
  activeMask : Option Nat
  lastMask : Option Mask
  lastMaskInitialLeft : Option ℚ
  lastMaskInitialTop : Option ℚ
  lastMaskInitialWidth : Option ℚ
  lastSnapshot : Option Scene
  hm : HistoryManager Cmd
deriving DecidableEq

/-- The scene snapshot `canvas.toJSON(['maskId','maskName'])` produces from
the current state. -/
def sceneOf (e : Editor) : Scene :=
  { hasImage := e.hasImage, imgWidth := e.imgWidth, imgHeight := e.imgHeight,
    imgScaleX := e.imgScaleX, imgAngle := e.imgAngle, masks := e.masks }

/-- `loadFromState(jsonString)`: restores a serialized scene — the base image
and the masks — recomputes `maskCounter` as the maximum restored mask id
(`masks.reduce((max, m) => Math.max(max, m.maskId), 0)`), and leaves the
active selection cleared (`loadFromJSON` replaces every canvas object).
Note that it does NOT touch `currentScale`, `currentRotation`, `_lastMask`
or `_lastSnapshot`. -/
def loadFromState (s : Scene) (e : Editor) : Editor :=
  { e with hasImage := s.hasImage, imgWidth := s.imgWidth,
           imgHeight := s.imgHeight, imgScaleX := s.imgScaleX,
           imgAngle := s.imgAngle, masks := s.masks,
           maskCounter := s.masks.foldl (fun acc m => max acc m.maskId) 0,
           activeMask := none }

/-- `saveState()`: serializes the current scene as `after`, takes `before`
from `_lastSnapshot` (falling back to `after` when no snapshot was ever
taken), wraps both in a `Command` whose first `execute()` is a no-op, hands
it to `HistoryManager.execute`, and records `after` as the new
`_lastSnapshot`. -/
def saveStateE (e : Editor) : Editor :=
  let after := sceneOf e
  let before := e.lastSnapshot.getD after
  { e with hm := e.hm.executeCmd { before := before, after := after },
           lastSnapshot := some after }

/-- `undo()` on the editor: `historyManager.undo()` runs the recorded
command's `undo` closure, which is `loadFromState(before)`. -/
def undoE (e : Editor) : Editor :=
  match e.hm.undoStep with
  | (hm2, some cmd) => loadFromState cmd.before { e with hm := hm2 }
  | (hm2, none) => { e with hm := hm2 }

/-- `redo()` on the editor: `historyManager.redo()` runs the recorded
command's `execute` closure which (the command having executed once already)
is `loadFromState(after)`. -/
def redoE (e : Editor) : Editor :=
  match e.hm.redoStep with
  | (hm2, some cmd) => loadFromState cmd.after { e with hm := hm2 }
  | (hm2, none) => { e with hm := hm2 }

/-- `loadImage(base64)` for a valid embedded-image payload, in the default
`expandCanvasToImage` configuration: clears the canvas (all masks vanish),
places the new base image untransformed (`fimg.scale(1)`, angle 0,
`baseImageScale = 1`), resets the `_lastMaskInitial*` placement fields, and
resets `maskCounter`, `currentScale` and `currentRotation`.  It does NOT
touch `_lastMask`, `_lastSnapshot` or the history. -/
def loadImageE (img : ImgData) (e : Editor) : Editor :=
  { e with hasImage := true, imgWidth := img.width, imgHeight := img.height,
           baseImageScale := 1, imgScaleX := 1, imgAngle := 0, masks := [],
           maskCounter := 0, currentScale := 1, currentRotation := 0,
           activeMask := none,
           lastMaskInitialLeft := none, lastMaskInitialTop := none,
           lastMaskInitialWidth := none }

/-- JavaScript `Math.min` on (non-NaN) numbers. -/
def jsMin (a b : ℚ) : ℚ := if a ≤ b then a else b

/-- JavaScript `Math.max` on (non-NaN) numbers. -/
def jsMax (a b : ℚ) : ℚ := if a ≤ b then b else a

/-- Exact rational addition (kernel-reducible implementation; proved equal to
`+` in `qAdd_eq_add`, used so that concrete witness states evaluate). -/
def qAdd (a b : ℚ) : ℚ :=
  mkRat (a.num * (b.den : ℤ) + (a.den : ℤ) * b.num) (a.den * b.den)

/-- Exact rational multiplication (kernel-reducible implementation; proved
equal to `*` in `qMul_eq_mul`). -/
def qMul (a b : ℚ) : ℚ := mkRat (a.num * b.num) (a.den * b.den)

/-- JavaScript `Math.round`: round half toward positive infinity,
`⌊x + 0.5⌋` (proved equal to Mathlib's `round` in `jsRound_eq_round`). -/
def jsRound (x : ℚ) : ℤ := (qAdd x (mkRat 1 2)).floor

/-- A completed `scaleImage(factor)` run of `_scaleImageImpl`: no-op when no
image is loaded or an animation is in flight; otherwise the factor is clamped
with `Math.max(minScale, Math.min(maxScale, factor))`, `currentScale` is set,
the image is animated to `baseImageScale * factor` on both axes and snapped
there on completion, `isAnimating` returns to false, and `saveState()`
records the result.  (Canvas-bounds growth and origin re-anchoring move the
image inside the canvas but change none of the modelled fields.) -/
def scaleImageE (f : ℚ) (e : Editor) : Editor :=
  if !e.hasImage then e
  else if e.isAnimating then e
  else
    let factor := jsMax e.opts.minScale (jsMin e.opts.maxScale f)
    saveStateE { e with currentScale := factor,
                        imgScaleX := qMul e.baseImageScale factor }

/-- A completed `rotateImage(degrees)` run of `_rotateImageImpl`: no-op when
no image is loaded or an animation is in flight; otherwise the angle is
stored unclamped and unnormalized, the image is animated to it, and
`saveState()` records the result. -/
def rotateImageE (d : ℚ) (e : Editor) : Editor :=
  if !e.hasImage then e
  else if e.isAnimating then e
  else saveStateE { e with currentRotation := d, imgAngle := d }

/-- `reset()`: no-op without an image; otherwise `scaleImage(1)`, then
`rotateImage(0)`, then one more `saveState()`. -/
def resetE (e : Editor) : Editor :=
  if !e.hasImage then e
  else saveStateE (rotateImageE 0 (scaleImageE 1 e))

/-- The `addMask` configuration record (the numeric-literal forms of the
`left/top/width/height` fields; the percentage-string and resolver-function
forms of `resolveValue` are part of the capability surface no claim
exercises).  Constructor defaults are in `defaultMaskConfig`. -/
structure MaskConfig where
  left : Option ℚ
  top : Option ℚ
  width : Option ℚ
  height : Option ℚ
  gap : ℚ
  color : String
  alpha : ℚ
  angle : ℚ
  selectable : Bool
deriving DecidableEq

/-- The defaults `addMask` merges under the caller's config: gap 5,
color 'rgba(0,0,0,0.5)', alpha 0.5, angle 0, selectable true, and
width/height falling back to the editor options. -/
def defaultMaskConfig : MaskConfig :=
  { left := none, top := none, width := none, height := none, gap := 5,
    color := "rgba(0,0,0,0.5)", alpha := mkRat 1 2, angle := 0,
    selectable := true }

/-- `_onSelectionChanged([newMask])` restyling: the selected mask gets the
highlight stroke '#ff0000', every other mask reverts to the neutral '#ccc'
(both with strokeWidth 1).  Comparison by mask id models the object-identity
comparison of the source; the two coincide because live mask ids are unique
(see the invariant theorems). -/
def setSelectionStroke (selId : Nat) (m : Mask) : Mask :=
  if m.maskId = selId then { m with stroke := some "#ff0000", strokeWidth := 1 }
  else { m with stroke := some "#ccc", strokeWidth := 1 }

/-- `addMask(config)` (rect shape path): placement starts at the fixed inset
(10, 10); when no explicit `left` is given and `_lastMask` is set, the new
mask goes immediately to the right of that remembered mask
(`Math.round(prev.left + prev.getScaledWidth() + gap)`, same top).  The mask
receives id `++maskCounter`, derived name, neutral stroke '#ccc' width 1,
`lockRotation` per the global policy; `_lastMaskInitial*` and `_lastMask` are
updated, the mask is added and selected (when selectable), selection
restyling runs, and `saveState()` records the result. -/
def addMaskE (cfg : MaskConfig) (e : Editor) : Editor :=
  let firstOffset : ℚ := 10
  let w := cfg.width.getD e.opts.defaultMaskWidth
  let h := cfg.height.getD e.opts.defaultMaskHeight
  let pos : ℚ × ℚ :=
    match cfg.left, e.lastMask with
    | none, some prev =>
        (((jsRound (qAdd (qAdd prev.left (qMul prev.width prev.scaleX)) cfg.gap) : Int) : ℚ),
         prev.top)
    | _, _ => (cfg.left.getD firstOffset, cfg.top.getD firstOffset)
  let newId := e.maskCounter + 1
  let mask : Mask :=
    { maskId := newId, maskName := e.opts.maskNamePre ++ toString newId,
      left := pos.1, top := pos.2, width := w, height := h, scaleX := 1,
      angle := cfg.angle, opacity := cfg.alpha, fill := cfg.color,
      stroke := some "#ccc", strokeWidth := 1, selectable := cfg.selectable,
      lockRotation := !e.opts.maskRotatable }
  saveStateE
    { e with masks := (e.masks ++ [mask]).map (setSelectionStroke newId),
             maskCounter := newId,
             lastMask := some mask,
             lastMaskInitialLeft := some pos.1,
             lastMaskInitialTop := some pos.2,
             lastMaskInitialWidth := some w,
             activeMask := if cfg.selectable then some newId else e.activeMask }

/-- `removeSelectedMask()`: no-op unless the active object is a mask;
otherwise removes it (and its label), clears the selection, and
`saveState()`s. -/
def removeSelectedMaskE (e : Editor) : Editor :=
  match e.activeMask with
  | none => e
  | some mid =>
      saveStateE { e with masks := e.masks.filter (fun m => m.maskId ≠ mid),
                          activeMask := none }

/-- `removeAllMasks()`: removes every mask (and label), clears the selection,
resets the `_lastMaskInitial*` placement fields — but NOT `_lastMask` — and
`saveState()`s. -/
def removeAllMasksE (e : Editor) : Editor :=
  saveStateE { e with masks := [], activeMask := none,
                      lastMaskInitialLeft := none, lastMaskInitialTop := none,
                      lastMaskInitialWidth := none }

/-- A successful `merge()`: no-op without an image or without masks;
otherwise deselects, exports Mode B (which restores every mask property it
touched — see `getImageBase64AreaMasks` — so the scene is unchanged by it),
removes all masks, reloads the merged raster as the new base image, and
`saveState()`s once more.  `merged` is the re-decoded merged raster the
export produced. -/
def mergeE (e : Editor) (merged : ImgData) : Editor :=
  if !e.hasImage then e
  else if e.masks = [] then e
  else saveStateE (loadImageE merged (removeAllMasksE { e with activeMask := none }))

/-- The AnimationQueue drain: `processQueue` takes the operations in
submission (FIFO) order, runs each to settlement on the state left by its
predecessor, and records every settlement outcome — a rejection is recorded
for its own entry and processing continues with the next operation.  On the
single-threaded event loop the queue is drained exactly like this sequential
recursion: `running` guarantees at most one operation is in flight, and the
recursive `processQueue()` call starts the next operation only after
`await fn()` has settled. -/
def processQueue {σ ε α : Type} (ops : List (σ → σ × Except ε α)) (s : σ) :
    σ × List (Except ε α) :=
  match ops with
  | [] => (s, [])
  | op :: rest =>
      let r := op s
      let rest2 := processQueue rest r.1
      (rest2.1, r.2 :: rest2.2)

/-- Failure modes of the export pipeline. -/
inductive ExportErr where
  | noImage
  | cropFailed
deriving DecidableEq

/-- A queued `scaleImage` call as the AnimationQueue sees it: the completed
implementation, which always resolves (its internal `.catch` swallows
animation errors). -/
def queuedScale (f : ℚ) : Editor → Editor × Except ExportErr Unit :=
  fun e => (scaleImageE f e, Except.ok ())

/-- Mode A of `getImageBase64` (`exportImageArea=false`): throws without an
image; otherwise draws the original image's source element onto an offscreen
canvas of exactly `originalImage.width × originalImage.height` — the native
dimensions — ignoring the on-scene scale, rotation, masks and the export
multiplier.  The model returns the output raster's pixel dimensions. -/
def getImageBase64ModeA (e : Editor) : Except ExportErr (Nat × Nat) :=
  if !e.hasImage then Except.error ExportErr.noImage
  else Except.ok (e.imgWidth, e.imgHeight)

/-- The temporary export styling of Mode B: each mask is forced to
`{opacity: 1, fill: '#000000', strokeWidth: 0, stroke: null,
selectable: false}`. -/
def exportMaskStyle (m : Mask) : Mask :=
  { m with opacity := 1, fill := "#000000", strokeWidth := 0, stroke := none,
           selectable := false }

/-- The per-mask restore step of Mode B: the backed-up opacity, fill,
strokeWidth, stroke, selectable and lockRotation are written back. -/
def restoreMask (backup m : Mask) : Mask :=
  { m with opacity := backup.opacity, fill := backup.fill,
           strokeWidth := backup.strokeWidth, stroke := backup.stroke,
           selectable := backup.selectable, lockRotation := backup.lockRotation }

/-- Mode B of `getImageBase64` (`exportImageArea=true`) as far as the mask
properties are concerned.  The source backs up each mask's properties,
applies the export styling, renders and then awaits the crop/re-encode
promise; `cropResult` is that promise's outcome.  Only AFTER a successful
await does the backup-restore loop run — there is no catch/finally around the
await, so a rejection propagates immediately and leaves every mask in the
export styling.  The model returns the settled outcome together with the mask
list at settlement time. -/
def getImageBase64AreaMasks (e : Editor) (cropResult : Except ExportErr String) :
    Except ExportErr String × List Mask :=
  match cropResult with
  | Except.error err => (Except.error err, e.masks.map exportMaskStyle)
  | Except.ok out =>
      (Except.ok out, e.masks.map (fun m => restoreMask m (exportMaskStyle m)))

/-- The editor operations reachability is quantified over (the public mutating
surface of the core). -/
inductive Op where
  | load (img : ImgData)
  | addM (cfg : MaskConfig)
  | removeSel
  | removeAll
  | scale (f : ℚ)
  | rotate (d : ℚ)
  | resetOp
  | mergeOp (img : ImgData)
  | undoOp
  | redoOp
  | save
deriving DecidableEq

/-- Dispatch one operation. -/
def applyOp (op : Op) (e : Editor) : Editor :=
  match op with
  | Op.load img => loadImageE img e
  | Op.addM cfg => addMaskE cfg e
  | Op.removeSel => removeSelectedMaskE e
  | Op.removeAll => removeAllMasksE e
  | Op.scale f => scaleImageE f e
  | Op.rotate d => rotateImageE d e
  | Op.resetOp => resetE e
  | Op.mergeOp img => mergeE e img
  | Op.undoOp => undoE e
  | Op.redoOp => redoE e
  | Op.save => saveStateE e

/-- Run a sequence of operations left to right. -/
def runOps (ops : List Op) (e : Editor) : Editor :=
  ops.foldl (fun acc o => applyOp o acc) e

/-- A freshly constructed editor (constructor state: no image, empty scene,
counter 0, no placement memory, empty 50-entry history). -/
def E0 : Editor :=
  { opts := defaultOptions, hasImage := false, imgWidth := 0, imgHeight := 0,
    baseImageScale := 1, imgScaleX := 1, imgAngle := 0, masks := [],
    currentScale := 1, currentRotation := 0, maskCounter := 0,
    isAnimating := false, activeMask := none, lastMask := none,
    lastMaskInitialLeft := none, lastMaskInitialTop := none,
    lastMaskInitialWidth := none, lastSnapshot := none,
    hm := { history := [], currentIndex := -1, maxSize := 50 } }

/-- A fresh editor with a 100×80 image loaded. -/
def E1 : Editor := loadImageE { width := 100, height := 80 } E0

/-- `E1` after one default `addMask` (one mask, id 1, selected). -/
def E2 : Editor := addMaskE defaultMaskConfig E1

/-- Well-formedness of a stored snapshot: its mask ids are pairwise
distinct. -/
def GoodScene (s : Scene) : Prop := (s.masks.map Mask.maskId).Nodup

/-- The id invariant: live mask ids are pairwise distinct and dominated by
`maskCounter`, and every snapshot reachable through the history or
`_lastSnapshot` has pairwise-distinct mask ids (so restoring it re-establishes
the live invariant). -/
def GoodEditor (e : Editor) : Prop :=
  (e.masks.map Mask.maskId).Nodup ∧
  (∀ m ∈ e.masks, m.maskId ≤ e.maskCounter) ∧
  (∀ cmd ∈ e.hm.history, GoodScene cmd.before ∧ GoodScene cmd.after) ∧
  (∀ s, e.lastSnapshot = some s → GoodScene s)

/-- `E1` scaled to factor 2: one history entry, cursor at the end,
`_lastSnapshot` equal to the current scene. -/
def EC5 : Editor := scaleImageE 2 E1

/-- The single history entry of `E2`: the very first `saveState` after a
fresh load has no `_lastSnapshot`, so `before` falls back to `after`. -/
def cmdW : Cmd := { before := sceneOf E2, after := sceneOf E2 }

/-- A history manager at maximum capacity with the cursor at the end (the
commands are just labelled by numbers: the manager is generic). -/
def hmW : HistoryManager Nat := { history := [10, 20], currentIndex := 1, maxSize := 2 }

/- ------------------------------------------------------------------ -/
/- Helper lemmas -/
/- ------------------------------------------------------------------ -/

theorem processQueue_append {σ ε α : Type} (l1 l2 : List (σ → σ × Except ε α))
    (s : σ) :
    processQueue (l1 ++ l2) s =
      ((processQueue l2 (processQueue l1 s).1).1,
       (processQueue l1 s).2 ++ (processQueue l2 (processQueue l1 s).1).2) := by
  induction l1 generalizing s with
  | nil => simp [processQueue]
  | cons op rest ih => simp [processQueue, ih]

theorem processQueue_length {σ ε α : Type} (ops : List (σ → σ × Except ε α))
    (s : σ) : (processQueue ops s).2.length = ops.length := by
  induction ops generalizing s with
  | nil => rfl
  | cons op rest ih => simp [processQueue, ih]

theorem jsMin_eq_min (a b : ℚ) : jsMin a b = min a b := by
  unfold jsMin; rw [min_def]

theorem jsMax_eq_max (a b : ℚ) : jsMax a b = max a b := by
  unfold jsMax; rw [max_def]

theorem qAdd_eq_add (a b : ℚ) : qAdd a b = a + b := by
  rw [qAdd, Rat.add_num_den a b, Rat.mkRat_eq_divInt]
  push_cast
  ring_nf

theorem qMul_eq_mul (a b : ℚ) : qMul a b = a * b := (Rat.mul_eq_mkRat a b).symm

theorem ratFloor_eq_intFloor (q : ℚ) : q.floor = ⌊q⌋ := by
  rw [Rat.floor_def', Rat.floor_def]

theorem mkRat_one_two : (mkRat 1 2 : ℚ) = 1 / 2 := by
  rw [Rat.mkRat_eq_divInt, Rat.divInt_eq_div]
  norm_num

theorem jsRound_eq_round (x : ℚ) : jsRound x = round x := by
  rw [jsRound, ratFloor_eq_intFloor, qAdd_eq_add, mkRat_one_two, round_eq]

theorem scaleImageE_currentScale (f : ℚ) (e : Editor) (h1 : e.hasImage = true)
    (h2 : e.isAnimating = false) :
    (scaleImageE f e).currentScale = max e.opts.minScale (min e.opts.maxScale f) := by
  simp [scaleImageE, saveStateE, h1, h2, jsMax_eq_max, jsMin_eq_min]

theorem scaleImageE_frame (f : ℚ) (e : Editor) :
    (scaleImageE f e).hasImage = e.hasImage ∧
    (scaleImageE f e).isAnimating = e.isAnimating ∧
    (scaleImageE f e).opts = e.opts ∧
    (scaleImageE f e).imgWidth = e.imgWidth ∧
    (scaleImageE f e).imgHeight = e.imgHeight ∧
    (scaleImageE f e).maskCounter = e.maskCounter := by
  unfold scaleImageE saveStateE
  split
  · exact ⟨rfl, rfl, rfl, rfl, rfl, rfl⟩
  · split
    · exact ⟨rfl, rfl, rfl, rfl, rfl, rfl⟩
    · exact ⟨rfl, rfl, rfl, rfl, rfl, rfl⟩

theorem rotateImageE_frame (d : ℚ) (e : Editor) :
    (rotateImageE d e).hasImage = e.hasImage ∧
    (rotateImageE d e).isAnimating = e.isAnimating ∧
    (rotateImageE d e).opts = e.opts ∧
    (rotateImageE d e).imgWidth = e.imgWidth ∧
    (rotateImageE d e).imgHeight = e.imgHeight ∧
    (rotateImageE d e).maskCounter = e.maskCounter := by
  unfold rotateImageE saveStateE
  split
  · exact ⟨rfl, rfl, rfl, rfl, rfl, rfl⟩
  · split
    · exact ⟨rfl, rfl, rfl, rfl, rfl, rfl⟩
    · exact ⟨rfl, rfl, rfl, rfl, rfl, rfl⟩

theorem addMaskE_frame (cfg : MaskConfig) (e : Editor) :
    (addMaskE cfg e).hasImage = e.hasImage ∧
    (addMaskE cfg e).imgWidth = e.imgWidth ∧
    (addMaskE cfg e).imgHeight = e.imgHeight := ⟨rfl, rfl, rfl⟩

theorem executeCmd_clean {α : Type} (hm : HistoryManager α) (c : α)
    (hidx : hm.currentIndex = (hm.history.length : Int) - 1)
    (hcap : hm.history.length + 1 ≤ hm.maxSize) :
    hm.executeCmd c =
      { history := hm.history ++ [c], currentIndex := hm.currentIndex + 1,
        maxSize := hm.maxSize } := by
  have h1 : ¬ (hm.currentIndex < (hm.history.length : Int) - 1) := by omega
  have h2 : ¬ (hm.maxSize < (hm.history ++ [c]).length) := by
    simp only [List.length_append, List.length_singleton]; omega
  simp only [HistoryManager.executeCmd, if_neg h1, if_neg h2]

theorem histGet_concat {α : Type} (l : List α) (c : α) :
    histGet (l ++ [c]) (l.length : Int) = some c := by
  have h0 : ¬ ((l.length : Int) < 0) := by omega
  have h1 : ((l.length : Int)).toNat = l.length := by omega
  unfold histGet
  rw [if_neg h0, h1, List.get?_eq_getElem?]
  exact List.getElem?_concat_length l c

theorem sceneOf_loadFromState (s : Scene) (e : Editor) :
    sceneOf (loadFromState s e) = s := rfl

theorem saveStateE_clean (e : Editor)
    (hidx : e.hm.currentIndex = (e.hm.history.length : Int) - 1)
    (hcap : e.hm.history.length + 1 ≤ e.hm.maxSize) :
    saveStateE e =
      { e with
        hm := { history := e.hm.history ++
                  [{ before := e.lastSnapshot.getD (sceneOf e),
                     after := sceneOf e }],
                currentIndex := e.hm.currentIndex + 1,
                maxSize := e.hm.maxSize },
        lastSnapshot := some (sceneOf e) } := by
  simp only [saveStateE, executeCmd_clean e.hm _ hidx hcap]

theorem undoE_after_saveStateE (e : Editor) (B : Scene)
    (hsnap : e.lastSnapshot = some B)
    (hidx : e.hm.currentIndex = (e.hm.history.length : Int) - 1)
    (hcap : e.hm.history.length + 1 ≤ e.hm.maxSize) :
    sceneOf (undoE (saveStateE e)) = B ∧
    (saveStateE e).hm.history.length = e.hm.history.length + 1 := by
  rw [saveStateE_clean e hidx hcap]
  constructor
  · unfold undoE HistoryManager.undoStep
    have hidx2 : e.hm.currentIndex + 1 = (e.hm.history.length : Int) := by omega
    rw [hsnap]
    simp only [hidx2, Option.getD_some, histGet_concat]
    rfl
  · simp

theorem undo_restores (e e2 : Editor) (B : Scene)
    (hhm : e2.hm = e.hm) (hsnap : e2.lastSnapshot = e.lastSnapshot)
    (hB : e.lastSnapshot = some B)
    (hidx : e.hm.currentIndex = (e.hm.history.length : Int) - 1)
    (hcap : e.hm.history.length + 1 ≤ e.hm.maxSize) :
    sceneOf (undoE (saveStateE e2)) = B ∧
    (saveStateE e2).hm.history.length = e.hm.history.length + 1 := by
  have h := undoE_after_saveStateE e2 B (by rw [hsnap, hB]) (by rw [hhm]; exact hidx)
    (by rw [hhm]; exact hcap)
  exact ⟨h.1, by rw [← hhm]; exact h.2⟩

/- ------------------------------------------------------------------ -/
/- Claim theorems -/
/- ------------------------------------------------------------------ -/

/-- C1: for every scale factor `f`, if an image is loaded and no animation is
in progress then after `scaleImage(f)` completes the editor's `currentScale`
equals `clamp(f, minScale, maxScale) = max(minScale, min(maxScale, f))`; if
no image is loaded the call resolves and the editor — in particular
`currentScale` — is unchanged. -/
theorem c1_scaleImage_clamps (e : Editor) (f : ℚ) :
    (e.hasImage = true → e.isAnimating = false →
      (scaleImageE f e).currentScale = max e.opts.minScale (min e.opts.maxScale f)) ∧
    (e.hasImage = false → scaleImageE f e = e) := by
  constructor
  · intro h1 h2
    exact scaleImageE_currentScale f e h1 h2
  · intro h
    simp [scaleImageE, h]

/-- C1 witness: on a freshly loaded editor, `scaleImage(7)` clamps to the
default maxScale 5; on an editor with no image the call leaves everything
unchanged. -/
theorem c1_witness :
    (E1.hasImage = true ∧ E1.isAnimating = false ∧
      (scaleImageE 7 E1).currentScale = max E1.opts.minScale (min E1.opts.maxScale 7) ∧
      (scaleImageE 7 E1).currentScale = 5) ∧
    (E0.hasImage = false ∧ scaleImageE 7 E0 = E0) := by
  exact ⟨⟨rfl, rfl, (c1_scaleImage_clamps E1 7).1 rfl rfl, by decide⟩,
         rfl, (c1_scaleImage_clamps E0 7).2 rfl⟩

/-- C4: for every history manager state (with the cursor in its invariant
range `currentIndex ≥ -1`), after `execute(command)` the predicate
`canRedo()` is false and `redo()` is a no-op running no command; and when the
history is at maximum capacity with the cursor at the end, the oldest entry
is evicted and the cursor does not advance. -/
theorem c4_execute_discards_redo {α : Type} (hm : HistoryManager α) (c : α)
    (hinv : -1 ≤ hm.currentIndex) :
    (hm.executeCmd c).canRedo = false ∧
    (hm.executeCmd c).redoStep = (hm.executeCmd c, none) ∧
    (1 ≤ hm.maxSize → hm.history.length = hm.maxSize →
      hm.currentIndex = (hm.history.length : Int) - 1 →
      (hm.executeCmd c).history = hm.history.drop 1 ++ [c] ∧
      (hm.executeCmd c).currentIndex = hm.currentIndex) := by
  have hfalse : (hm.executeCmd c).canRedo = false := by
    by_cases htr : hm.currentIndex < (hm.history.length : Int) - 1
    · simp only [HistoryManager.executeCmd, if_pos htr]
      split
      · rename_i hcap
        simp only [HistoryManager.canRedo, List.length_drop, List.length_append,
          List.length_take, List.length_singleton] at *
        rw [decide_eq_false_iff_not]
        omega
      · rename_i hcap
        simp only [HistoryManager.canRedo, List.length_append, List.length_take,
          List.length_singleton] at *
        rw [decide_eq_false_iff_not]
        omega
    · simp only [HistoryManager.executeCmd, if_neg htr]
      split
      · rename_i hcap
        simp only [HistoryManager.canRedo, List.length_drop, List.length_append,
          List.length_singleton] at *
        rw [decide_eq_false_iff_not]
        omega
      · rename_i hcap
        simp only [HistoryManager.canRedo, List.length_append,
          List.length_singleton] at *
        rw [decide_eq_false_iff_not]
        omega
  have hnot : ¬ ((hm.executeCmd c).currentIndex <
      (((hm.executeCmd c).history).length : Int) - 1) := by
    have h2 := of_decide_eq_false hfalse
    exact h2
  refine ⟨hfalse, ?_, ?_⟩
  · unfold HistoryManager.redoStep
    rw [if_neg hnot]
  · intro hms hlen hidx
    have htr : ¬ (hm.currentIndex < (hm.history.length : Int) - 1) := by omega
    have hcap : hm.maxSize < (hm.history ++ [c]).length := by
      simp only [List.length_append, List.length_singleton]; omega
    simp only [HistoryManager.executeCmd, if_neg htr, if_pos hcap]
    exact ⟨List.drop_append_of_le_length (by omega), trivial⟩

/-- C4 witness: a concrete manager at capacity 2 holding two commands with
the cursor at the end; executing a third evicts the oldest, keeps the cursor,
and leaves nothing to redo. -/
theorem c4_witness :
    (-1 ≤ hmW.currentIndex) ∧ (1 ≤ hmW.maxSize) ∧
    (hmW.history.length = hmW.maxSize) ∧
    (hmW.currentIndex = (hmW.history.length : Int) - 1) ∧
    (hmW.executeCmd 30).canRedo = false ∧
    (hmW.executeCmd 30).redoStep = (hmW.executeCmd 30, none) ∧
    (hmW.executeCmd 30).history = [20, 30] ∧
    (hmW.executeCmd 30).currentIndex = 1 := by
  have h := c4_execute_discards_redo hmW 30 (by decide)
  have h3 := h.2.2 (by decide) (by decide) (by decide)
  refine ⟨by decide, by decide, by decide, by decide, h.1, h.2.1, ?_, ?_⟩
  · rw [h3.1]; decide
  · rw [h3.2]; decide

/-- C2: the AnimationQueue starts operations in submission (FIFO) order with
at most one in flight: draining a queue split anywhere equals draining the
first part and then the second from the state the first left (each operation
starts only after its predecessors settled); every operation settles and its
outcome — fulfilled or rejected — is recorded at its own position, so a
rejection reaches only its own caller and does not prevent later queued
operations; consequently two `scaleImage` calls issued without awaiting the
first leave the final scale at the clamp of the SECOND target, never an
interleaved value. -/
theorem c2_queue_serializes :
    (∀ (σ ε α : Type) (l1 l2 : List (σ → σ × Except ε α)) (s : σ),
        processQueue (l1 ++ l2) s =
          ((processQueue l2 (processQueue l1 s).1).1,
           (processQueue l1 s).2 ++ (processQueue l2 (processQueue l1 s).1).2)) ∧
    (∀ (σ ε α : Type) (ops : List (σ → σ × Except ε α)) (s : σ),
        (processQueue ops s).2.length = ops.length) ∧
    (∀ (e : Editor) (f1 f2 : ℚ), e.hasImage = true → e.isAnimating = false →
        (processQueue [queuedScale f1, queuedScale f2] e).1.currentScale =
          max e.opts.minScale (min e.opts.maxScale f2)) := by
  refine ⟨fun σ ε α l1 l2 s => processQueue_append l1 l2 s,
          fun σ ε α ops s => processQueue_length ops s, ?_⟩
  intro e f1 f2 h1 h2
  have hs := scaleImageE_frame f1 e
  show (scaleImageE f2 (scaleImageE f1 e)).currentScale = _
  rw [scaleImageE_currentScale f2 (scaleImageE f1 e) (hs.1.trans h1)
        (hs.2.1.trans h2), hs.2.2.1]

/-- C2 witness: two scale requests queued back to back on a fresh loaded
editor; the final scale is the second target. -/
theorem c2_witness :
    E1.hasImage = true ∧ E1.isAnimating = false ∧
    (processQueue [queuedScale 2, queuedScale 3] E1).1.currentScale = 3 := by
  refine ⟨rfl, rfl, ?_⟩
  have h := c2_queue_serializes.2.2 E1 2 3 rfl rfl
  rw [h]
  rw [← jsMin_eq_min, ← jsMax_eq_max]
  decide

/-- C9: Mode A export (`exportImageArea=false`) produces a raster whose pixel
dimensions are exactly the base image's own (native) width and height,
whatever scale, rotation and masks have been applied to the scene. -/
theorem c9_modeA_native_dims (e : Editor) (f d : ℚ) (cfg : MaskConfig)
    (h : e.hasImage = true) :
    getImageBase64ModeA (addMaskE cfg (rotateImageE d (scaleImageE f e))) =
      Except.ok (e.imgWidth, e.imgHeight) ∧
    getImageBase64ModeA e = Except.ok (e.imgWidth, e.imgHeight) := by
  have hs := scaleImageE_frame f e
  have hr := rotateImageE_frame d (scaleImageE f e)
  have ha := addMaskE_frame cfg (rotateImageE d (scaleImageE f e))
  constructor
  · unfold getImageBase64ModeA
    rw [ha.1, hr.1, hs.1, h, ha.2.1, hr.2.2.2.1, hs.2.2.2.1, ha.2.2,
        hr.2.2.2.2.1, hs.2.2.2.2.1]
    simp
  · unfold getImageBase64ModeA
    rw [h]
    simp

/-- C9 witness: a 100×80 image scaled to 3 and rotated to 45 with one mask
still exports 100×80 in Mode A. -/
theorem c9_witness :
    E1.hasImage = true ∧
    getImageBase64ModeA (addMaskE defaultMaskConfig
        (rotateImageE 45 (scaleImageE 3 E1))) = Except.ok (100, 80) := by
  refine ⟨rfl, ?_⟩
  have h := (c9_modeA_native_dims E1 3 45 defaultMaskConfig rfl).1
  rw [h]
  rfl

/-- C3 (refuted — code bug): when the crop/re-encode promise of Mode B export
rejects, the call settles as a rejection with every mask still in the
temporary export styling (opacity 1, fill '#000000', strokeWidth 0, stroke
null, selectable false): the restore loop sits after the awaited promise with
no catch or finally around it, so the original opacity / fill / strokeWidth /
stroke / selectable are NOT restored by the time the call settles —
contradicting the claim (and the method's own contract "Will restore masks'
state after temporary modifications for export").  Restoration does happen on
the success path. -/
theorem c3_crop_failure_leaves_masks_mutated :
    (getImageBase64AreaMasks E2 (Except.error ExportErr.cropFailed)).1 =
      Except.error ExportErr.cropFailed ∧
    (getImageBase64AreaMasks E2 (Except.error ExportErr.cropFailed)).2 ≠ E2.masks ∧
    ((getImageBase64AreaMasks E2 (Except.error ExportErr.cropFailed)).2.map
        Mask.opacity) = [1] ∧
    (E2.masks.map Mask.opacity) = [mkRat 1 2] ∧
    ((getImageBase64AreaMasks E2 (Except.error ExportErr.cropFailed)).2.map
        Mask.selectable) = [false] ∧
    (E2.masks.map Mask.selectable) = [true] ∧
    (getImageBase64AreaMasks E2 (Except.ok "data")).2 = E2.masks := by
  refine ⟨rfl, by decide, by decide, by decide, by decide, by decide, by decide⟩

/-- C6 (refuted — code bug): with one default mask at the inset (10, 10)
(width 50), `removeAllMasks()` followed by `addMask()` with no explicit
left/top places the new mask at left 65 = round(10 + 50·1 + 5) — immediately
to the right of the REMOVED mask — not at the default inset (10, 10).
`removeAllMasks` resets only the write-only `_lastMaskInitial*` fields
(despite its doc: "internal mask placement memory are reset"), while the
cascading placement in `addMask` consults `this._lastMask`, which is never
cleared. -/
theorem c6_removeAll_keeps_cascade_memory :
    ((runOps [Op.load { width := 100, height := 80 },
              Op.addM defaultMaskConfig, Op.removeAll,
              Op.addM defaultMaskConfig] E0).masks.map
        (fun m => (m.maskId, m.left, m.top))) = [(2, 65, 10)] ∧
    ((runOps [Op.load { width := 100, height := 80 },
              Op.addM defaultMaskConfig, Op.removeAll,
              Op.addM defaultMaskConfig] E0).masks.map
        (fun m => (m.left, m.top))) ≠ [(10, 10)] := by
  refine ⟨by decide, by decide⟩

/-- C10: after a successful merge (image loaded, at least one mask), the
merged raster is reloaded as the new base image, so `currentScale = 1`,
`currentRotation = 0` and `maskCounter = 0`; the next mask added after the
merge receives id 1. -/
theorem c10_merge_resets_transform (e : Editor) (img : ImgData)
    (cfg : MaskConfig) (h1 : e.hasImage = true) (h2 : e.masks ≠ []) :
    (mergeE e img).currentScale = 1 ∧
    (mergeE e img).currentRotation = 0 ∧
    (mergeE e img).maskCounter = 0 ∧
    ((addMaskE cfg (mergeE e img)).masks.map Mask.maskId) = [1] := by
  have hbody : mergeE e img =
      saveStateE (loadImageE img (removeAllMasksE { e with activeMask := none })) := by
    unfold mergeE
    rw [h1]
    simp only [Bool.not_true, Bool.false_eq_true, if_false]
    exact if_neg h2
  rw [hbody]
  exact ⟨rfl, rfl, rfl, rfl⟩

/-- C10 witness: merging `E2` (one mask, one image) into a 120×90 merged
raster resets scale, rotation and the id counter; the next mask gets id 1. -/
theorem c10_witness :
    E2.hasImage = true ∧ E2.masks ≠ [] ∧
    (mergeE E2 { width := 120, height := 90 }).currentScale = 1 ∧
    (mergeE E2 { width := 120, height := 90 }).currentRotation = 0 ∧
    (mergeE E2 { width := 120, height := 90 }).maskCounter = 0 ∧
    ((addMaskE defaultMaskConfig
        (mergeE E2 { width := 120, height := 90 })).masks.map Mask.maskId) = [1] := by
  have h := c10_merge_resets_transform E2 { width := 120, height := 90 }
    defaultMaskConfig rfl (by decide)
  exact ⟨rfl, by decide, h.1, h.2.1, h.2.2.1, h.2.2.2⟩

theorem undoE_spec (e : Editor) (cmd : Cmd)
    (hg : histGet e.hm.history e.hm.currentIndex = some cmd) :
    undoE e = loadFromState cmd.before
      { e with hm := { e.hm with currentIndex := e.hm.currentIndex - 1 } } := by
  unfold undoE HistoryManager.undoStep
  rw [hg]

theorem redoE_spec (e : Editor) (cmd : Cmd)
    (hcond : e.hm.currentIndex < (e.hm.history.length : Int) - 1)
    (hg : histGet e.hm.history (e.hm.currentIndex + 1) = some cmd) :
    redoE e = loadFromState cmd.after
      { e with hm := { e.hm with currentIndex := e.hm.currentIndex + 1 } } := by
  unfold redoE HistoryManager.redoStep
  rw [if_pos hcond, hg]

/-- C7: for a history entry created by `saveState`, with the cursor on that
entry and the current scene equal to the entry's recorded (after) snapshot —
i.e. the scene has not been mutated outside the history since the snapshot
was taken — `undo()` followed by `redo()` returns the scene to a snapshot
identical to the one current before the undo: the same mask ids, mask
positions, image scale and rotation (all fields of the serialized scene). -/
theorem c7_undo_redo_roundtrip (e : Editor) (i : Nat) (cmd : Cmd)
    (hidx : e.hm.currentIndex = (i : Int))
    (hget : e.hm.history.get? i = some cmd)
    (hscene : sceneOf e = cmd.after) :
    sceneOf (redoE (undoE e)) = sceneOf e := by
  have hlen : i < e.hm.history.length := by
    rcases List.get?_eq_some.1 hget with ⟨hl, _⟩
    exact hl
  have hti : ((i : Int)).toNat = i := by omega
  have hg1 : histGet e.hm.history e.hm.currentIndex = some cmd := by
    unfold histGet
    rw [hidx, if_neg (by omega), hti]
    exact hget
  rw [undoE_spec e cmd hg1]
  have hcond : (loadFromState cmd.before
      { e with hm := { e.hm with currentIndex := e.hm.currentIndex - 1 } }).hm.currentIndex <
      (((loadFromState cmd.before
      { e with hm := { e.hm with currentIndex := e.hm.currentIndex - 1 } }).hm.history).length : Int) - 1 := by
    show e.hm.currentIndex - 1 < (e.hm.history.length : Int) - 1
    omega
  have hg2 : histGet (loadFromState cmd.before
      { e with hm := { e.hm with currentIndex := e.hm.currentIndex - 1 } }).hm.history
      ((loadFromState cmd.before
      { e with hm := { e.hm with currentIndex := e.hm.currentIndex - 1 } }).hm.currentIndex + 1) = some cmd := by
    show histGet e.hm.history (e.hm.currentIndex - 1 + 1) = some cmd
    have h3 : e.hm.currentIndex - 1 + 1 = (i : Int) := by omega
    rw [h3]
    unfold histGet
    rw [if_neg (by omega), hti]
    exact hget
  rw [redoE_spec _ cmd hcond hg2]
  rw [sceneOf_loadFromState, hscene]

/-- C7 witness: on `E2` (one mask, one history entry, cursor 0, scene equal
to the entry's after-snapshot), undo then redo reproduces the scene. -/
theorem c7_witness :
    E2.hm.currentIndex = ((0 : Nat) : Int) ∧
    E2.hm.history.get? 0 = some cmdW ∧
    sceneOf E2 = cmdW.after ∧
    sceneOf (redoE (undoE E2)) = sceneOf E2 := by
  exact ⟨by decide, by decide, rfl,
         c7_undo_redo_roundtrip E2 0 cmdW (by decide) (by decide) rfl⟩

theorem scaleImageE_eq (f : ℚ) (e : Editor) (h1 : e.hasImage = true)
    (h2 : e.isAnimating = false) :
    scaleImageE f e = saveStateE { e with
      currentScale := jsMax e.opts.minScale (jsMin e.opts.maxScale f),
      imgScaleX := qMul e.baseImageScale
        (jsMax e.opts.minScale (jsMin e.opts.maxScale f)) } := by
  simp [scaleImageE, h1, h2]

theorem rotateImageE_eq (d : ℚ) (e : Editor) (h1 : e.hasImage = true)
    (h2 : e.isAnimating = false) :
    rotateImageE d e = saveStateE { e with currentRotation := d, imgAngle := d } := by
  simp [rotateImageE, h1, h2]

theorem removeSelectedMaskE_eq (e : Editor) (mid : Nat)
    (hact : e.activeMask = some mid) :
    removeSelectedMaskE e = saveStateE { e with
      masks := e.masks.filter (fun m => m.maskId ≠ mid), activeMask := none } := by
  unfold removeSelectedMaskE
  rw [hact]

theorem saveStateE_of_clean (base e2 : Editor)
    (hhm : e2.hm = base.hm)
    (hidx : base.hm.currentIndex = (base.hm.history.length : Int) - 1)
    (hcap : base.hm.history.length + 1 ≤ base.hm.maxSize) :
    (saveStateE e2).hm.history.length = base.hm.history.length + 1 ∧
    (saveStateE e2).hm.currentIndex = (((saveStateE e2).hm.history.length : Int)) - 1 ∧
    (saveStateE e2).hm.maxSize = base.hm.maxSize ∧
    (saveStateE e2).lastSnapshot = some (sceneOf e2) := by
  have hidx2 : e2.hm.currentIndex = (e2.hm.history.length : Int) - 1 := by
    rw [hhm]; exact hidx
  have hcap2 : e2.hm.history.length + 1 ≤ e2.hm.maxSize := by
    rw [hhm]; exact hcap
  rw [saveStateE_clean e2 hidx2 hcap2]
  refine ⟨?_, ?_, ?_, rfl⟩
  · show (e2.hm.history ++ [_]).length = base.hm.history.length + 1
    rw [hhm]
    simp
  · show e2.hm.currentIndex + 1 = (((e2.hm.history ++ [_]).length : Int)) - 1
    simp only [List.length_append, List.length_singleton]
    omega
  · show e2.hm.maxSize = base.hm.maxSize
    rw [hhm]

theorem resetE_count (e : Editor) (h1 : e.hasImage = true)
    (h2 : e.isAnimating = false)
    (hidx : e.hm.currentIndex = (e.hm.history.length : Int) - 1)
    (hcap : e.hm.history.length + 3 ≤ e.hm.maxSize) :
    (resetE e).hm.history.length = e.hm.history.length + 3 := by
  have hfr := scaleImageE_frame 1 e
  have hs := scaleImageE_eq 1 e h1 h2
  have hr := rotateImageE_eq 0 (scaleImageE 1 e) (hfr.1.trans h1) (hfr.2.1.trans h2)
  have hres : resetE e = saveStateE (rotateImageE 0 (scaleImageE 1 e)) := by
    simp [resetE, h1]
  rw [hres, hr, hs]
  have p1 := saveStateE_of_clean e
    { e with currentScale := jsMax e.opts.minScale (jsMin e.opts.maxScale 1),
             imgScaleX := qMul e.baseImageScale
               (jsMax e.opts.minScale (jsMin e.opts.maxScale 1)) }
    rfl hidx (by omega)
  have p2 := saveStateE_of_clean
    (saveStateE { e with
        currentScale := jsMax e.opts.minScale (jsMin e.opts.maxScale 1),
        imgScaleX := qMul e.baseImageScale
          (jsMax e.opts.minScale (jsMin e.opts.maxScale 1)) })
    { (saveStateE { e with
        currentScale := jsMax e.opts.minScale (jsMin e.opts.maxScale 1),
        imgScaleX := qMul e.baseImageScale
          (jsMax e.opts.minScale (jsMin e.opts.maxScale 1)) }) with
      currentRotation := 0, imgAngle := 0 }
    rfl p1.2.1 (by rw [p1.1, p1.2.2.1]; omega)
  have p3 := saveStateE_of_clean
    (saveStateE { (saveStateE { e with
        currentScale := jsMax e.opts.minScale (jsMin e.opts.maxScale 1),
        imgScaleX := qMul e.baseImageScale
          (jsMax e.opts.minScale (jsMin e.opts.maxScale 1)) }) with
      currentRotation := 0, imgAngle := 0 })
    (saveStateE { (saveStateE { e with
        currentScale := jsMax e.opts.minScale (jsMin e.opts.maxScale 1),
        imgScaleX := qMul e.baseImageScale
          (jsMax e.opts.minScale (jsMin e.opts.maxScale 1)) }) with
      currentRotation := 0, imgAngle := 0 })
    rfl p2.2.1 (by rw [p2.1, p1.1, p2.2.2.1, p1.2.2.1]; omega)
  rw [p3.1, p2.1, p1.1]

theorem mergeE_count (e : Editor) (img : ImgData) (h1 : e.hasImage = true)
    (h2 : e.masks ≠ [])
    (hidx : e.hm.currentIndex = (e.hm.history.length : Int) - 1)
    (hcap : e.hm.history.length + 2 ≤ e.hm.maxSize) :
    (mergeE e img).hm.history.length = e.hm.history.length + 2 := by
  have hbody : mergeE e img =
      saveStateE (loadImageE img (removeAllMasksE { e with activeMask := none })) := by
    unfold mergeE
    rw [h1]
    simp only [Bool.not_true, Bool.false_eq_true, if_false]
    exact if_neg h2
  rw [hbody]
  show (saveStateE (loadImageE img (saveStateE
      { e with masks := [], activeMask := none,
               lastMaskInitialLeft := none, lastMaskInitialTop := none,
               lastMaskInitialWidth := none }))).hm.history.length =
    e.hm.history.length + 2
  have p1 := saveStateE_of_clean e
    { e with masks := [], activeMask := none,
             lastMaskInitialLeft := none, lastMaskInitialTop := none,
             lastMaskInitialWidth := none }
    rfl hidx (by omega)
  have p2 := saveStateE_of_clean
    (saveStateE
      { e with masks := [], activeMask := none,
               lastMaskInitialLeft := none, lastMaskInitialTop := none,
               lastMaskInitialWidth := none })
    (loadImageE img (saveStateE
      { e with masks := [], activeMask := none,
               lastMaskInitialLeft := none, lastMaskInitialTop := none,
               lastMaskInitialWidth := none }))
    rfl p1.2.1 (by rw [p1.1, p1.2.2.1]; omega)
  rw [p2.1, p1.1]

/-- C5 counterexample: on the concrete editor `EC5` (image loaded, scaled to
factor 2, one history entry, clean), a single completed `reset()` call
appends THREE history entries — one from the queued `scaleImage(1)`, one from
the queued `rotateImage(0)`, and one more from its own final `saveState()` —
not exactly one as the claim states; moreover a single `undo()` right after
the reset leaves the scene at the post-reset snapshot (image scale 1), it
does not restore the pre-reset scene (image scale 2). -/
theorem c5_counterexample :
    EC5.hm.history.length = 1 ∧
    (resetE EC5).hm.history.length = 4 ∧
    (resetE EC5).hm.history.length ≠ EC5.hm.history.length + 1 ∧
    (sceneOf EC5).imgScaleX = 2 ∧
    (sceneOf (undoE (resetE EC5))).imgScaleX = 1 ∧
    sceneOf (undoE (resetE EC5)) ≠ sceneOf EC5 := by
  refine ⟨by decide, by decide, by decide, by decide, by decide, by decide⟩

/-- C5 as amended (changed only as far as the counterexample forces): each
single completed `scaleImage`, `rotateImage`, `addMask` and
`removeSelectedMask` call on a clean editor (image loaded, not animating,
cursor at the end of a history with room, last snapshot equal to the current
scene, and — for removeSelectedMask — a mask selected) appends exactly one
history entry, and a single `undo()` immediately afterwards restores exactly
the scene (mask set, image scale, rotation) that held immediately before the
call; `reset()` however appends three entries and `merge()` two (so a single
undo after those does not return to the pre-call scene). -/
theorem c5_amended (e : Editor) (f d : ℚ) (cfg : MaskConfig) (mid : Nat)
    (img : ImgData)
    (h1 : e.hasImage = true) (h2 : e.isAnimating = false)
    (hidx : e.hm.currentIndex = (e.hm.history.length : Int) - 1)
    (hcap : e.hm.history.length + 3 ≤ e.hm.maxSize)
    (hsnap : e.lastSnapshot = some (sceneOf e))
    (hact : e.activeMask = some mid) :
    (sceneOf (undoE (scaleImageE f e)) = sceneOf e ∧
      (scaleImageE f e).hm.history.length = e.hm.history.length + 1) ∧
    (sceneOf (undoE (rotateImageE d e)) = sceneOf e ∧
      (rotateImageE d e).hm.history.length = e.hm.history.length + 1) ∧
    (sceneOf (undoE (addMaskE cfg e)) = sceneOf e ∧
      (addMaskE cfg e).hm.history.length = e.hm.history.length + 1) ∧
    (sceneOf (undoE (removeSelectedMaskE e)) = sceneOf e ∧
      (removeSelectedMaskE e).hm.history.length = e.hm.history.length + 1) ∧
    (resetE e).hm.history.length = e.hm.history.length + 3 ∧
    (e.masks ≠ [] → (mergeE e img).hm.history.length = e.hm.history.length + 2) := by
  refine ⟨?_, ?_, ?_, ?_, ?_, ?_⟩
  · rw [scaleImageE_eq f e h1 h2]
    exact undo_restores e _ (sceneOf e) rfl rfl hsnap hidx (by omega)
  · rw [rotateImageE_eq d e h1 h2]
    exact undo_restores e _ (sceneOf e) rfl rfl hsnap hidx (by omega)
  · unfold addMaskE
    exact undo_restores e _ (sceneOf e) rfl rfl hsnap hidx (by omega)
  · rw [removeSelectedMaskE_eq e mid hact]
    exact undo_restores e _ (sceneOf e) rfl rfl hsnap hidx (by omega)
  · exact resetE_count e h1 h2 hidx hcap
  · intro hmasks
    exact mergeE_count e img h1 hmasks hidx (by omega)

/-- C5 witness: all hypotheses of the amended claim hold at the concrete
editor `E2` (one image, one selected mask, one history entry, clean), and
every conclusion is exercised there. -/
theorem c5_witness :
    (E2.hasImage = true ∧ E2.isAnimating = false ∧
     E2.hm.currentIndex = (E2.hm.history.length : Int) - 1 ∧
     E2.hm.history.length + 3 ≤ E2.hm.maxSize ∧
     E2.lastSnapshot = some (sceneOf E2) ∧
     E2.activeMask = some 1 ∧ E2.masks ≠ []) ∧
    (sceneOf (undoE (scaleImageE 2 E2)) = sceneOf E2 ∧
     (scaleImageE 2 E2).hm.history.length = E2.hm.history.length + 1) ∧
    (sceneOf (undoE (rotateImageE 30 E2)) = sceneOf E2 ∧
     (rotateImageE 30 E2).hm.history.length = E2.hm.history.length + 1) ∧
    (sceneOf (undoE (addMaskE defaultMaskConfig E2)) = sceneOf E2 ∧
     (addMaskE defaultMaskConfig E2).hm.history.length = E2.hm.history.length + 1) ∧
    (sceneOf (undoE (removeSelectedMaskE E2)) = sceneOf E2 ∧
     (removeSelectedMaskE E2).hm.history.length = E2.hm.history.length + 1) ∧
    (resetE E2).hm.history.length = E2.hm.history.length + 3 ∧
    (mergeE E2 { width := 120, height := 90 }).hm.history.length =
      E2.hm.history.length + 2 := by
  have h := c5_amended E2 2 30 defaultMaskConfig 1 { width := 120, height := 90 }
    rfl rfl (by decide) (by decide) (by decide) (by decide)
  exact ⟨⟨rfl, rfl, by decide, by decide, by decide, by decide, by decide⟩,
         h.1, h.2.1, h.2.2.1, h.2.2.2.1, h.2.2.2.2.1, h.2.2.2.2.2 (by decide)⟩

theorem setSelectionStroke_maskId (s : Nat) (m : Mask) :
    (setSelectionStroke s m).maskId = m.maskId := by
  unfold setSelectionStroke
  split
  · rfl
  · rfl

theorem map_setSel_maskId (s : Nat) (l : List Mask) :
    (l.map (setSelectionStroke s)).map Mask.maskId = l.map Mask.maskId := by
  rw [List.map_map]
  exact List.map_congr_left (fun a _ => setSelectionStroke_maskId s a)

theorem foldl_max_le_init (l : List Mask) (a : Nat) :
    a ≤ l.foldl (fun acc m => max acc m.maskId) a := by
  induction l generalizing a with
  | nil => exact le_refl a
  | cons hd tl ih =>
    exact le_trans (le_max_left a hd.maskId) (ih (max a hd.maskId))

theorem mem_le_foldl_max (l : List Mask) (m : Mask) : m ∈ l → ∀ a : Nat,
    m.maskId ≤ l.foldl (fun acc x => max acc x.maskId) a := by
  induction l with
  | nil => intro hm a; cases hm
  | cons hd tl ih =>
    intro hm a
    rcases List.mem_cons.1 hm with h | h
    · subst h
      exact le_trans (le_max_right a m.maskId) (foldl_max_le_init tl _)
    · exact ih h _

theorem mem_executeCmd {α : Type} {hm : HistoryManager α} {c x : α}
    (hx : x ∈ (hm.executeCmd c).history) : x ∈ hm.history ∨ x = c := by
  simp only [HistoryManager.executeCmd] at hx
  by_cases htr : hm.currentIndex < (hm.history.length : Int) - 1
  · simp only [if_pos htr] at hx
    by_cases hcapb : hm.maxSize <
        (hm.history.take (hm.currentIndex + 1).toNat ++ [c]).length
    · simp only [if_pos hcapb] at hx
      rcases List.mem_append.1 (List.mem_of_mem_drop hx) with h | h
      · exact Or.inl (List.take_subset _ _ h)
      · exact Or.inr (List.mem_singleton.1 h)
    · simp only [if_neg hcapb] at hx
      rcases List.mem_append.1 hx with h | h
      · exact Or.inl (List.take_subset _ _ h)
      · exact Or.inr (List.mem_singleton.1 h)
  · simp only [if_neg htr] at hx
    by_cases hcapb : hm.maxSize < (hm.history ++ [c]).length
    · simp only [if_pos hcapb] at hx
      rcases List.mem_append.1 (List.mem_of_mem_drop hx) with h | h
      · exact Or.inl h
      · exact Or.inr (List.mem_singleton.1 h)
    · simp only [if_neg hcapb] at hx
      rcases List.mem_append.1 hx with h | h
      · exact Or.inl h
      · exact Or.inr (List.mem_singleton.1 h)

theorem good_saveStateE (e : Editor) (hg : GoodEditor e) :
    GoodEditor (saveStateE e) := by
  obtain ⟨hnodup, hle, hhist, hsnap⟩ := hg
  refine ⟨hnodup, hle, ?_, ?_⟩
  · intro cmd hcmd
    rcases mem_executeCmd hcmd with h | h
    · exact hhist cmd h
    · subst h
      constructor
      · show GoodScene (e.lastSnapshot.getD (sceneOf e))
        cases hls : e.lastSnapshot with
        | none => exact hnodup
        | some s => exact hsnap s hls
      · exact hnodup
  · intro s hs
    have : sceneOf e = s := Option.some.inj hs
    rw [← this]
    exact hnodup

theorem good_loadFromState (s : Scene) (e : Editor) (hs : GoodScene s)
    (hg : GoodEditor e) : GoodEditor (loadFromState s e) := by
  refine ⟨hs, ?_, hg.2.2.1, hg.2.2.2⟩
  intro m hm
  exact mem_le_foldl_max s.masks m hm 0

theorem good_loadImageE (img : ImgData) (e : Editor) (hg : GoodEditor e) :
    GoodEditor (loadImageE img e) := by
  refine ⟨List.nodup_nil, ?_, hg.2.2.1, hg.2.2.2⟩
  intro m hm
  cases hm

theorem good_addMaskE (cfg : MaskConfig) (e : Editor) (hg : GoodEditor e) :
    GoodEditor (addMaskE cfg e) := by
  apply good_saveStateE
  obtain ⟨hnodup, hle, hhist, hsnap⟩ := hg
  refine ⟨?_, ?_, hhist, hsnap⟩
  · show (((e.masks ++ [_]).map (setSelectionStroke (e.maskCounter + 1))).map
      Mask.maskId).Nodup
    rw [map_setSel_maskId, List.map_append]
    refine List.nodup_append.2 ⟨hnodup, List.nodup_singleton _, ?_⟩
    intro a ha hb
    rcases List.mem_map.1 ha with ⟨m, hmem, hid⟩
    have h1 : a ≤ e.maskCounter := hid ▸ hle m hmem
    have h2 : a = e.maskCounter + 1 := List.mem_singleton.1 hb
    omega
  · intro m hm
    show m.maskId ≤ e.maskCounter + 1
    rcases List.mem_map.1 hm with ⟨m0, hmem0, hm0⟩
    rcases List.mem_append.1 hmem0 with h | h
    · have := hle m0 h
      rw [← hm0, setSelectionStroke_maskId]
      omega
    · rcases List.mem_singleton.1 h with h2
      rw [← hm0, h2, setSelectionStroke_maskId]

theorem good_removeSelectedMaskE (e : Editor) (hg : GoodEditor e) :
    GoodEditor (removeSelectedMaskE e) := by
  unfold removeSelectedMaskE
  cases e.activeMask with
  | none => exact hg
  | some mid =>
    apply good_saveStateE
    refine ⟨?_, ?_, hg.2.2.1, hg.2.2.2⟩
    · exact hg.1.sublist ((List.filter_sublist e.masks).map Mask.maskId)
    · intro m hm
      exact hg.2.1 m (List.mem_of_mem_filter hm)

theorem good_removeAllMasksE (e : Editor) (hg : GoodEditor e) :
    GoodEditor (removeAllMasksE e) := by
  apply good_saveStateE
  refine ⟨List.nodup_nil, ?_, hg.2.2.1, hg.2.2.2⟩
  intro m hm
  cases hm

theorem good_scaleImageE (f : ℚ) (e : Editor) (hg : GoodEditor e) :
    GoodEditor (scaleImageE f e) := by
  unfold scaleImageE
  split
  · exact hg
  · split
    · exact hg
    · exact good_saveStateE _ hg

theorem good_rotateImageE (d : ℚ) (e : Editor) (hg : GoodEditor e) :
    GoodEditor (rotateImageE d e) := by
  unfold rotateImageE
  split
  · exact hg
  · split
    · exact hg
    · exact good_saveStateE _ hg

theorem good_resetE (e : Editor) (hg : GoodEditor e) :
    GoodEditor (resetE e) := by
  unfold resetE
  split
  · exact hg
  · exact good_saveStateE _ (good_rotateImageE 0 _ (good_scaleImageE 1 _ hg))

theorem good_mergeE (e : Editor) (img : ImgData) (hg : GoodEditor e) :
    GoodEditor (mergeE e img) := by
  unfold mergeE
  split
  · exact hg
  · split
    · exact hg
    · exact good_saveStateE _ (good_loadImageE img _ (good_removeAllMasksE _ hg))

theorem good_undoE (e : Editor) (hg : GoodEditor e) : GoodEditor (undoE e) := by
  unfold undoE HistoryManager.undoStep
  cases hh : histGet e.hm.history e.hm.currentIndex with
  | none => exact hg
  | some cmd =>
    have hcmdmem : cmd ∈ e.hm.history := by
      unfold histGet at hh
      split at hh
      · cases hh
      · exact List.get?_mem hh
    exact good_loadFromState _ _ (hg.2.2.1 cmd hcmdmem).1
      ⟨hg.1, hg.2.1, hg.2.2.1, hg.2.2.2⟩

theorem good_redoE (e : Editor) (hg : GoodEditor e) : GoodEditor (redoE e) := by
  unfold redoE HistoryManager.redoStep
  by_cases hcond : e.hm.currentIndex < (e.hm.history.length : Int) - 1
  · rw [if_pos hcond]
    cases hh : histGet e.hm.history (e.hm.currentIndex + 1) with
    | none => exact hg
    | some cmd =>
      have hcmdmem : cmd ∈ e.hm.history := by
        unfold histGet at hh
        split at hh
        · cases hh
        · exact List.get?_mem hh
      exact good_loadFromState _ _ (hg.2.2.1 cmd hcmdmem).2
        ⟨hg.1, hg.2.1, hg.2.2.1, hg.2.2.2⟩
  · rw [if_neg hcond]
    exact hg

theorem good_applyOp (op : Op) (e : Editor) (hg : GoodEditor e) :
    GoodEditor (applyOp op e) := by
  cases op with
  | load img => exact good_loadImageE img e hg
  | addM cfg => exact good_addMaskE cfg e hg
  | removeSel => exact good_removeSelectedMaskE e hg
  | removeAll => exact good_removeAllMasksE e hg
  | scale f => exact good_scaleImageE f e hg
  | rotate d => exact good_rotateImageE d e hg
  | resetOp => exact good_resetE e hg
  | mergeOp img => exact good_mergeE e img hg
  | undoOp => exact good_undoE e hg
  | redoOp => exact good_redoE e hg
  | save => exact good_saveStateE e hg

theorem good_runOps (ops : List Op) (e : Editor) (hg : GoodEditor e) :
    GoodEditor (runOps ops e) := by
  induction ops generalizing e with
  | nil => exact hg
  | cons op rest ih => exact ih (applyOp op e) (good_applyOp op e hg)

theorem goodE0 : GoodEditor E0 :=
  ⟨List.nodup_nil, fun m hm => absurd hm (List.not_mem_nil m),
   fun c hc => absurd hc (List.not_mem_nil c), fun _ hs => by cases hs⟩

theorem addMaskE_ids (cfg : MaskConfig) (e : Editor) :
    (addMaskE cfg e).masks.map Mask.maskId =
      e.masks.map Mask.maskId ++ [e.maskCounter + 1] := by
  show ((e.masks ++ [_]).map (setSelectionStroke (e.maskCounter + 1))).map
      Mask.maskId = _
  rw [map_setSel_maskId, List.map_append]
  rfl

/-- C8 counterexample: during the lifetime of ONE loaded image, the sequence
addMask, addMask, undo, addMask assigns the mask ids 1, 2 and then 2 again —
the third `addMask` call's id (2) is not greater than the second call's (2),
because `undo()`'s `loadFromState` recomputes `maskCounter` as the maximum
restored id (here 1).  So the ids assigned by successive `addMask` calls
during one image's lifetime are NOT strictly increasing as claimed (they are
only when no history navigation intervenes — see the amended theorem). -/
theorem c8_counterexample :
    ((runOps [Op.load { width := 100, height := 80 }, Op.addM defaultMaskConfig,
              Op.addM defaultMaskConfig] E0).masks.map Mask.maskId) = [1, 2] ∧
    (runOps [Op.load { width := 100, height := 80 }, Op.addM defaultMaskConfig,
             Op.addM defaultMaskConfig, Op.undoOp] E0).maskCounter = 1 ∧
    ((runOps [Op.load { width := 100, height := 80 }, Op.addM defaultMaskConfig,
              Op.addM defaultMaskConfig, Op.undoOp] E0).masks.map Mask.maskId) = [1] ∧
    ((runOps [Op.load { width := 100, height := 80 }, Op.addM defaultMaskConfig,
              Op.addM defaultMaskConfig, Op.undoOp,
              Op.addM defaultMaskConfig] E0).masks.map Mask.maskId) = [1, 2] := by
  refine ⟨by decide, by decide, by decide, by decide⟩

/-- C8 as amended (changed only as far as the counterexample forces): (i) in
every editor state reachable from a fresh editor by any sequence of
operations — including undo/redo — the live mask ids are pairwise distinct
and dominated by `maskCounter`, and every stored snapshot has pairwise
distinct ids (`GoodEditor`); (ii) `loadImage` resets the counter to 0;
(iii) every `addMask` assigns exactly `maskCounter + 1` (hence the first
mask after a load has id 1 and, as long as no undo/redo/load/merge
intervenes, successive `addMask` ids are strictly increasing from 1, since
(iv) scale, rotate, removeSelectedMask and removeAllMasks leave the counter
unchanged). -/
theorem c8_amended :
    (∀ ops : List Op, GoodEditor (runOps ops E0)) ∧
    (∀ (img : ImgData) (e : Editor), (loadImageE img e).maskCounter = 0) ∧
    (∀ (cfg : MaskConfig) (e : Editor),
        (addMaskE cfg e).maskCounter = e.maskCounter + 1 ∧
        ((addMaskE cfg e).masks.map Mask.maskId).getLast? =
          some (e.maskCounter + 1)) ∧
    (∀ (img : ImgData) (cfg : MaskConfig) (e : Editor),
        ((addMaskE cfg (loadImageE img e)).masks.map Mask.maskId) = [1]) ∧
    (∀ (e : Editor) (f : ℚ), (scaleImageE f e).maskCounter = e.maskCounter) ∧
    (∀ (e : Editor) (d : ℚ), (rotateImageE d e).maskCounter = e.maskCounter) ∧
    (∀ e : Editor, (removeSelectedMaskE e).maskCounter = e.maskCounter) ∧
    (∀ e : Editor, (removeAllMasksE e).maskCounter = e.maskCounter) := by
  refine ⟨fun ops => good_runOps ops E0 goodE0, fun img e => rfl,
          fun cfg e => ⟨rfl, ?_⟩, fun img cfg e => ?_,
          fun e f => (scaleImageE_frame f e).2.2.2.2.2,
          fun e d => (rotateImageE_frame d e).2.2.2.2.2,
          fun e => ?_, fun e => rfl⟩
  · rw [addMaskE_ids, List.getLast?_append_cons]
    rfl
  · rw [addMaskE_ids]
    rfl
  · unfold removeSelectedMaskE
    cases e.activeMask with
    | none => rfl
    | some mid => rfl
